import Mathlib

/-!
Verification development for the pre-filter API (`src/main.py`).

The Python source is shallowly embedded: machine floats become exact
rationals (`ℚ`), Python lists of two/four floats become pairs / a `Rect`
structure, Pydantic models become Lean structures, and the handful of
regex patterns in `extract_dimension_value` are embedded as deterministic
recognisers over `List Char` (the regexes are anchored, and no alternative
of any pattern can start with a character that the preceding greedy
sub-expression could also consume, so greedy left-to-right scanning is the
exact match semantics).
-/

namespace PreFilter

/-- Output point, mirrors Pydantic model `CleanPoint` (fields x, y). -/
structure CleanPoint where
  x : ℚ
  y : ℚ
  deriving DecidableEq, Repr

/-- An axis-aligned rectangle given as `[x1, y1, x2, y2]` in the source
(used for `coordinate_block` and text `bounding_box`). -/
structure Rect where
  x1 : ℚ
  y1 : ℚ
  x2 : ℚ
  y2 : ℚ
  deriving DecidableEq, Repr

/-- Mirrors Pydantic model `VectorLine`. -/
structure VectorLine where
  p1 : ℚ × ℚ
  p2 : ℚ × ℚ
  stroke_width : ℚ
  length : ℚ
  color : List ℤ
  is_dashed : Bool
  angle : Option ℚ
  deriving DecidableEq, Repr

/-- Mirrors Pydantic model `VectorText`. -/
structure VectorText where
  text : String
  position : ℚ × ℚ
  font_size : Option ℚ
  bounding_box : Rect
  deriving DecidableEq, Repr

/-- Mirrors Pydantic model `VectorPage`. -/
structure VectorPage where
  page_size : ℚ × ℚ
  lines : List VectorLine
  texts : List VectorText
  deriving DecidableEq, Repr

/-- Mirrors Pydantic model `VectorData`. -/
structure VectorData where
  page_number : ℤ
  pages : List VectorPage
  deriving DecidableEq, Repr

/-- Mirrors Pydantic model `VisionRegion`. -/
structure VisionRegion where
  label : String
  coordinate_block : Rect
  deriving DecidableEq, Repr

/-- Mirrors Pydantic model `VisionOutput` (`image_metadata` is never read
by the pipeline and is omitted). -/
structure VisionOutput where
  drawing_type : String
  regions : List VisionRegion
  deriving DecidableEq, Repr

/-- Mirrors Pydantic model `FilterInput`. -/
structure FilterInput where
  vector_data : VectorData
  vision_output : VisionOutput
  deriving DecidableEq, Repr

/-- Mirrors Pydantic model `FilteredLine`. -/
structure FilteredLine where
  length : ℚ
  orientation : String
  midpoint : CleanPoint
  deriving DecidableEq, Repr

/-- Mirrors Pydantic model `FilteredText` (its midpoint dict `{"x":…,"y":…}`
is modelled as a `CleanPoint`). -/
structure FilteredText where
  text : String
  midpoint : CleanPoint
  deriving DecidableEq, Repr

/-- Mirrors Pydantic model `RegionData`. -/
structure RegionData where
  label : String
  lines : List FilteredLine
  texts : List FilteredText
  parsed_drawing_type : Option String
  deriving DecidableEq, Repr

/-- Mirrors Pydantic model `CleanOutput`. -/
structure CleanOutput where
  drawing_type : String
  regions : List RegionData
  deriving DecidableEq, Repr

/-! String helpers modelling the Python primitives used by the source
(`str.strip`, `str.lower`, `in`, `str.find`, slicing, and the regex
character class `\s`).  Whitespace is modelled as the ASCII whitespace
characters, which is what the source's inputs contain. -/

/-- Characters treated as whitespace by Python's `str.strip()` and by the
regex class `\s` (ASCII fragment). -/
def pySpace (c : Char) : Bool :=
  c = ' ' ∨ c = '\t' ∨ c = '\n' ∨ c = '\r' ∨ c = '\x0b' ∨ c = '\x0c'

/-- Python `str.strip()`: remove leading and trailing whitespace. -/
def pyStrip (s : List Char) : List Char :=
  (((s.dropWhile pySpace).reverse).dropWhile pySpace).reverse

/-- Python `str.lower()` on the character lists we deal with (ASCII). -/
def pyLower (s : List Char) : List Char :=
  s.map Char.toLower

/-- Python `needle in hay` substring test. -/
def containsSub (hay needle : List Char) : Bool :=
  match hay with
  | [] => needle.isEmpty
  | _ :: t => needle.isPrefixOf hay || containsSub t needle

/-- Python `str.find(c)` for a single character, on inputs where the
character is known to occur (the source only calls `find` after checking
membership with `in`; on absence this model returns the length). -/
def pyFind (c : Char) : List Char → Nat
  | [] => 0
  | x :: xs => if x = c then 0 else pyFind c xs + 1

/-- Python slice `s[start:stop]` for non-negative indices (empty when
`stop ≤ start`, as in Python). -/
def pySlice (s : List Char) (start stop : Nat) : List Char :=
  (s.drop start).take (stop - start)

/-- Numeric value of a non-empty digit string. -/
def digitsVal (ds : List Char) : ℚ :=
  (ds.foldl (fun a c => 10 * a + (c.toNat - '0'.toNat)) 0 : ℕ)

/-- The regex fragment `(\d+(?:[,.]\d+)?)` of `extract_dimension_value`,
followed by the source's `group(1).replace(',', '.')` and `float(...)`:
greedily read an integer part, then a fractional part exactly when a `,`
or `.` is immediately followed by a digit (the regex engine's greedy
matching is exact here because every continuation in the seven patterns
begins with `\s`, `+`, `p`, `v`, a unit letter or end-of-string, never
with a digit, comma or dot).  Returns the rational value and the rest. -/
def parseNum (s : List Char) : Option (ℚ × List Char) :=
  let ds := s.takeWhile Char.isDigit
  let rest := s.dropWhile Char.isDigit
  if ds.isEmpty then none
  else
    match rest with
    | c :: rest2 =>
      if c = ',' ∨ c = '.' then
        let fs := rest2.takeWhile Char.isDigit
        let rest3 := rest2.dropWhile Char.isDigit
        if fs.isEmpty then some (digitsVal ds, rest)
        else some (digitsVal ds + digitsVal fs / (10 : ℚ) ^ fs.length, rest3)
      else some (digitsVal ds, rest)
    | [] => some (digitsVal ds, [])

/-- The regex fragment `\s*` (greedy; exact because no continuation can
start with whitespace). -/
def skipWs (s : List Char) : List Char :=
  s.dropWhile pySpace

/-- Anchored tail `(mm|cm|m)?$` under `re.IGNORECASE`: the remaining input
must be exactly a unit or empty; the captured unit is returned lowercased
(the source only ever uses `unit.lower()`). -/
def unitTail3 (s : List Char) : Option (Option (List Char)) :=
  let l := pyLower s
  if l = [] then some none
  else if l = ['m', 'm'] ∨ l = ['c', 'm'] ∨ l = ['m'] then some (some l)
  else none

/-- Anchored tail `(mm|cm|m|p|v)?$` under `re.IGNORECASE` (pattern 2). -/
def unitTail5 (s : List Char) : Option (Option (List Char)) :=
  let l := pyLower s
  if l = [] then some none
  else if l = ['m', 'm'] ∨ l = ['c', 'm'] ∨ l = ['m'] ∨ l = ['p'] ∨ l = ['v'] then
    some (some l)
  else none

/-- Pattern 1: `^(\d+(?:[,.]\d+)?)\s*(mm|cm|m)?$`. -/
def pat1 (s : List Char) : Option (ℚ × Option (List Char)) :=
  match parseNum s with
  | none => none
  | some (v, r) =>
    match unitTail3 (skipWs r) with
    | some u => some (v, u)
    | none => none

/-- Pattern 2: `^\+(\d+(?:[,.]\d+)?)\s*(mm|cm|m|p|v)?$`. -/
def pat2 (s : List Char) : Option (ℚ × Option (List Char)) :=
  match s with
  | '+' :: rest =>
    match parseNum rest with
    | none => none
    | some (v, r) =>
      match unitTail5 (skipWs r) with
      | some u => some (v, u)
      | none => none
  | _ => none

/-- Shared tail of patterns 3–7: `[pPvV]\s*(mm|cm|m)?$` restricted to the
allowed marker characters. -/
def markerUnitTail (marks : List Char) (s : List Char) : Option (Option (List Char)) :=
  match s with
  | c :: rest => if c ∈ marks then unitTail3 (skipWs rest) else none
  | [] => none

/-- Pattern 3: `^(\d+(?:[,.]\d+)?)\s*[pP]\s*(mm|cm|m)?$`. -/
def pat3 (s : List Char) : Option (ℚ × Option (List Char)) :=
  match parseNum s with
  | none => none
  | some (v, r) =>
    match markerUnitTail ['p', 'P'] (skipWs r) with
    | some u => some (v, u)
    | none => none

/-- Pattern 4: `^(\d+(?:[,.]\d+)?)\s*[vV]\s*(mm|cm|m)?$`. -/
def pat4 (s : List Char) : Option (ℚ × Option (List Char)) :=
  match parseNum s with
  | none => none
  | some (v, r) =>
    match markerUnitTail ['v', 'V'] (skipWs r) with
    | some u => some (v, u)
    | none => none

/-- Pattern 5: `^\+(\d+(?:[,.]\d+)?)\s*[pPvV]\s*(mm|cm|m)?$`. -/
def pat5 (s : List Char) : Option (ℚ × Option (List Char)) :=
  match s with
  | '+' :: rest =>
    match parseNum rest with
    | none => none
    | some (v, r) =>
      match markerUnitTail ['p', 'P', 'v', 'V'] (skipWs r) with
      | some u => some (v, u)
      | none => none
  | _ => none

/-- Pattern 6: `^(\d+(?:[,.]\d+)?)\s*\+\s*[pPvV]\s*(mm|cm|m)?$`. -/
def pat6 (s : List Char) : Option (ℚ × Option (List Char)) :=
  match parseNum s with
  | none => none
  | some (v, r) =>
    match skipWs r with
    | '+' :: rest =>
      match markerUnitTail ['p', 'P', 'v', 'V'] (skipWs rest) with
      | some u => some (v, u)
      | none => none
    | _ => none

/-- Pattern 7: `^(\d+(?:[,.]\d+)?)\s+\+\s*[pPvV]\s*(mm|cm|m)?$`
(like pattern 6 but with mandatory whitespace before the `+`). -/
def pat7 (s : List Char) : Option (ℚ × Option (List Char)) :=
  match parseNum s with
  | none => none
  | some (v, r) =>
    match r with
    | c :: r1 =>
      if pySpace c then
        match skipWs r1 with
        | '+' :: rest =>
          match markerUnitTail ['p', 'P', 'v', 'V'] (skipWs rest) with
          | some u => some (v, u)
          | none => none
        | _ => none
      else none
    | [] => none

/-- Unit conversion step of `extract_dimension_value` (source lines
207–223): `cm` ×10, `m` ×1000, `mm` identity; any other captured token
(`p`/`v`) or no unit at all means the value is already millimeters. -/
def convertUnit (v : ℚ) (u : Option (List Char)) : ℚ :=
  match u with
  | some unit =>
    if unit = ['c', 'm'] then v * 10
    else if unit = ['m'] then v * 1000
    else if unit = ['m', 'm'] then v
    else v
  | none => v

/-- Try the seven patterns in declaration order on the stripped text. -/
def extractCore (s : List Char) : Option ℚ :=
  match pat1 s with
  | some (v, u) => some (convertUnit v u)
  | none =>
  match pat2 s with
  | some (v, u) => some (convertUnit v u)
  | none =>
  match pat3 s with
  | some (v, u) => some (convertUnit v u)
  | none =>
  match pat4 s with
  | some (v, u) => some (convertUnit v u)
  | none =>
  match pat5 s with
  | some (v, u) => some (convertUnit v u)
  | none =>
  match pat6 s with
  | some (v, u) => some (convertUnit v u)
  | none =>
  match pat7 s with
  | some (v, u) => some (convertUnit v u)
  | none => none

/-- Embeds `extract_dimension_value` (source lines 176–225). -/
def extract_dimension_value (text : String) : Option ℚ :=
  extractCore (pyStrip text.toList)

/-- Embeds `is_valid_dimension` (source lines 227–261). -/
def is_valid_dimension (text : String) (drawing_type : String) : Bool :=
  if text.toList = [] ∨ pyStrip text.toList = [] then false
  else
    let text_clean := pyStrip text.toList
    match extractCore (pyStrip text_clean) with
    | none => false
    | some extracted_value =>
      if drawing_type = "plattegrond" then
        if extracted_value < 500 then false
        else if extracted_value > 100000 then false
        else true
      else
        if extracted_value < 100 then false
        else if extracted_value > 100000 then false
        else true

/-- The valid explicit sub-type tags of `parse_bestektekening_region_type`
(source lines 104–108). -/
def validTypes : List (List Char) :=
  ["plattegrond".toList, "doorsnede".toList, "gevelaanzicht".toList,
   "detailtekening_kozijn".toList, "detailtekening_plattegrond".toList,
   "detailtekening".toList]

/-- Embeds `parse_bestektekening_region_type` (source lines 94–132): try
the slice between the first `(` and the first `)` against the closed tag
set, otherwise fall back to keyword matching on the lowercased label. -/
def parse_bestektekening_region_type (region_label : String) : String :=
  let cs := region_label.toList
  let parenHit : Option String :=
    if '(' ∈ cs ∧ ')' ∈ cs then
      let start := pyFind '(' cs + 1
      let stop := pyFind ')' cs
      let extracted_type := pyStrip (pySlice cs start stop)
      if extracted_type ∈ validTypes then some (String.mk extracted_type) else none
    else none
  match parenHit with
  | some t => t
  | none =>
    let label_lower := pyLower cs
    if containsSub label_lower "plattegrond".toList ∨
       containsSub label_lower "grond".toList ∨
       containsSub label_lower "verdieping".toList then "plattegrond"
    else if containsSub label_lower "gevel".toList ∨
            containsSub label_lower "aanzicht".toList then "gevelaanzicht"
    else if containsSub label_lower "doorsnede".toList then "doorsnede"
    else if containsSub label_lower "detail".toList then
      if containsSub label_lower "kozijn".toList ∨
         containsSub label_lower "raam".toList ∨
         containsSub label_lower "deur".toList then "detailtekening_kozijn"
      else "detailtekening"
    else "unknown"

/-- Python's float modulo with positive divisor: result in `[0, b)`. -/
def pymod (a b : ℚ) : ℚ :=
  a - b * ⌊a / b⌋

/-- Decides `degrees(atan2(dy, dx)) < 15` for `dx, dy > 0`, i.e.
`dy / dx < tan 15° = 2 − √3`, i.e. `√3·dx < 2·dx − dy`; squaring gives the
rational test below (valid exactly because both sides must be positive). -/
def slopeLtTan15 (dy dx : ℚ) : Bool :=
  decide (0 < 2 * dx - dy) && decide (3 * dx ^ 2 < (2 * dx - dy) ^ 2)

/-- Decides `degrees(atan2(dy, dx)) > 75` for `dx, dy > 0`, i.e.
`dy / dx > tan 75° = 2 + √3`, i.e. `√3·dx < dy − 2·dx`. -/
def slopeGtTan75 (dy dx : ℚ) : Bool :=
  decide (0 < dy - 2 * dx) && decide (3 * dx ^ 2 < (dy - 2 * dx) ^ 2)

/-- Embeds `calculate_orientation` (source lines 134–160).  In the
endpoint branch `dx, dy ≥ 1`, so `angle_deg = degrees(atan2(dy, dx))` lies
in `(0°, 90°)`: the source's test `angle_deg < 15 or angle_deg > 165`
reduces to `angle_deg < 15` (encoded through `slopeLtTan15`) and
`75 < angle_deg < 105` reduces to `angle_deg > 75` (`slopeGtTan75`). -/
def calculate_orientation (p1 p2 : ℚ × ℚ) (angle : Option ℚ) : String :=
  match angle with
  | some a =>
    let normalized_angle := |pymod a 180|
    if normalized_angle < 15 ∨ normalized_angle > 165 then "vertical"
    else if 75 < normalized_angle ∧ normalized_angle < 105 then "horizontal"
    else "diagonal"
  | none =>
    let dx := |p2.1 - p1.1|
    let dy := |p2.2 - p1.2|
    if dx < 1 then "horizontal"
    else if dy < 1 then "vertical"
    else
      if slopeLtTan15 dy dx then "vertical"
      else if slopeGtTan75 dy dx then "horizontal"
      else "diagonal"

/-- Embeds `calculate_midpoint` (source lines 162–167). -/
def calculate_midpoint (p1 p2 : ℚ × ℚ) : CleanPoint :=
  ⟨(p1.1 + p2.1) / 2, (p1.2 + p2.2) / 2⟩

/-- Embeds `calculate_text_midpoint` (source lines 169–174). -/
def calculate_text_midpoint (bbox : Rect) : CleanPoint :=
  ⟨(bbox.x1 + bbox.x2) / 2, (bbox.y1 + bbox.y2) / 2⟩

/-- The 25-unit buffer expansion of a region (source lines 265–266). -/
def expandRect (r : Rect) : Rect :=
  ⟨r.x1 - 25, r.y1 - 25, r.x2 + 25, r.y2 + 25⟩

/-- Membership of a point in a rectangle, inclusive bounds (the endpoint
test of `line_intersects_region`, source lines 269–271). -/
def pointInRect (p : ℚ × ℚ) (r : Rect) : Bool :=
  decide (r.x1 ≤ p.1 ∧ p.1 ≤ r.x2 ∧ r.y1 ≤ p.2 ∧ p.2 ≤ r.y2)

/-- Models `LineString([p1, p2]).intersects(box(...))` from shapely
(source lines 286–289): exact segment–rectangle intersection, boundary
inclusive.  Encoded by separating axes: the segment meets the rectangle
iff their x-projections overlap, their y-projections overlap, and the
four rectangle corners do not all lie strictly on one side of the line
through the segment. -/
def segment_crosses_box (p1 p2 : ℚ × ℚ) (r : Rect) : Bool :=
  let overlapX := decide (min p1.1 p2.1 ≤ r.x2 ∧ r.x1 ≤ max p1.1 p2.1)
  let overlapY := decide (min p1.2 p2.2 ≤ r.y2 ∧ r.y1 ≤ max p1.2 p2.2)
  let cross := fun (qx qy : ℚ) =>
    (p2.1 - p1.1) * (qy - p1.2) - (p2.2 - p1.2) * (qx - p1.1)
  let c1 := cross r.x1 r.y1
  let c2 := cross r.x2 r.y1
  let c3 := cross r.x1 r.y2
  let c4 := cross r.x2 r.y2
  let allPos := decide (0 < c1 ∧ 0 < c2 ∧ 0 < c3 ∧ 0 < c4)
  let allNeg := decide (c1 < 0 ∧ c2 < 0 ∧ c3 < 0 ∧ c4 < 0)
  overlapX && overlapY && !(allPos || allNeg)

/-- Embeds `line_intersects_region` (source lines 263–292): endpoint test
against the 25-expanded region, then a bounding-box rejection, then the
exact shapely intersection. -/
def line_intersects_region (line_p1 line_p2 : ℚ × ℚ) (region : Rect) : Bool :=
  let expanded_region := expandRect region
  if pointInRect line_p1 expanded_region || pointInRect line_p2 expanded_region then
    true
  else
    let line_min_x := min line_p1.1 line_p2.1
    let line_max_x := max line_p1.1 line_p2.1
    let line_min_y := min line_p1.2 line_p2.2
    let line_max_y := max line_p1.2 line_p2.2
    if line_max_x < expanded_region.x1 ∨ line_min_x > expanded_region.x2 ∨
       line_max_y < expanded_region.y1 ∨ line_min_y > expanded_region.y2 then
      false
    else
      segment_crosses_box line_p1 line_p2 expanded_region

/-- Embeds `text_overlaps_region` (source lines 294–304). -/
def text_overlaps_region (text : VectorText) (region : Rect) : Bool :=
  let expanded_region := expandRect region
  let b := text.bounding_box
  !(decide (b.x2 < expanded_region.x1 ∨ b.x1 > expanded_region.x2 ∨
            b.y2 < expanded_region.y1 ∨ b.y1 > expanded_region.y2))

/-- Embeds `should_include_line` (source lines 306–334). -/
def should_include_line (line : VectorLine) (drawing_type : String)
    (region_label : String) : Bool :=
  if drawing_type = "bestektekening" then
    let region_drawing_type := parse_bestektekening_region_type region_label
    if region_drawing_type = "plattegrond" then
      decide (line.stroke_width ≤ 3/2 ∧ line.length ≥ 50) || line.is_dashed
    else if region_drawing_type = "gevelaanzicht" then
      decide (line.stroke_width ≤ 3/2 ∧ line.length ≥ 40) || line.is_dashed
    else if region_drawing_type = "doorsnede" then
      decide (line.stroke_width ≤ 3/2 ∧ line.length ≥ 40) || line.is_dashed
    else if region_drawing_type = "detailtekening_kozijn" ∨
            region_drawing_type = "detailtekening_plattegrond" ∨
            region_drawing_type = "detailtekening" then
      decide (line.stroke_width ≤ 1 ∧ line.length ≥ 20) || line.is_dashed
    else
      decide (line.stroke_width ≤ 3/2 ∧ line.length ≥ 30) || line.is_dashed
  else if drawing_type = "plattegrond" then
    decide (line.stroke_width ≤ 3/2 ∧ line.length ≥ 50) || line.is_dashed
  else if drawing_type = "gevelaanzicht" then
    decide (line.stroke_width ≤ 3/2 ∧ line.length ≥ 40) || line.is_dashed
  else if drawing_type = "doorsnede" then
    decide (line.stroke_width ≤ 3/2 ∧ line.length ≥ 40) || line.is_dashed
  else if drawing_type = "detailtekening" ∨ drawing_type = "detailtekening_kozijn" ∨
          drawing_type = "detailtekening_plattegrond" then
    decide (line.stroke_width ≤ 1 ∧ line.length ≥ 20) || line.is_dashed
  else if drawing_type = "installatietekening" then
    false
  else
    decide (line.stroke_width ≤ 3/2 ∧ line.length ≥ 30) || line.is_dashed

/-- Embeds `should_include_text` (source lines 336–356). -/
def should_include_text (text : VectorText) (drawing_type : String)
    (region_label : String) : Bool :=
  let effective_drawing_type :=
    if drawing_type = "bestektekening" then
      parse_bestektekening_region_type region_label
    else drawing_type
  if effective_drawing_type = "installatietekening" then false
  else is_valid_dimension text.text effective_drawing_type

/-- Duplicate test of `remove_duplicate_lines` (source lines 367–377):
endpoints equal within a strict tolerance of 1 per coordinate, directly
or with the two endpoints swapped. -/
def isDupLine (line existing_line : VectorLine) : Bool :=
  let p1_match := decide (|line.p1.1 - existing_line.p1.1| < 1 ∧
                          |line.p1.2 - existing_line.p1.2| < 1)
  let p2_match := decide (|line.p2.1 - existing_line.p2.1| < 1 ∧
                          |line.p2.2 - existing_line.p2.2| < 1)
  let p1_reverse := decide (|line.p1.1 - existing_line.p2.1| < 1 ∧
                            |line.p1.2 - existing_line.p2.2| < 1)
  let p2_reverse := decide (|line.p2.1 - existing_line.p1.1| < 1 ∧
                            |line.p2.2 - existing_line.p1.2| < 1)
  (p1_match && p2_match) || (p1_reverse && p2_reverse)

/-- Accumulator loop of `remove_duplicate_lines` (source lines 363–382):
a line is appended to the accepted list iff it duplicates none of the
already accepted lines. -/
def dedupeAux : List VectorLine → List VectorLine → List VectorLine
  | [], unique_lines => unique_lines
  | line :: rest, unique_lines =>
    if unique_lines.any (isDupLine line) then dedupeAux rest unique_lines
    else dedupeAux rest (unique_lines ++ [line])

/-- Embeds `remove_duplicate_lines` (source lines 358–385). -/
def remove_duplicate_lines (lines : List VectorLine) : List VectorLine :=
  dedupeAux lines []

/-- Step 1 of `filter_clean` (source lines 534–545): the permissive global
rule for `bestektekening`, `should_include_line` with an empty region
label otherwise. -/
def step1Filter (drawing_type : String) (lines : List VectorLine) : List VectorLine :=
  if drawing_type = "bestektekening" then
    lines.filter fun line =>
      decide (line.stroke_width ≤ 3/2 ∧ line.length ≥ 20) || line.is_dashed
  else
    lines.filter fun line => should_include_line line drawing_type ""

/-- Projection of an included line to the output shape (source lines
588–592). -/
def projectLine (line : VectorLine) : FilteredLine :=
  ⟨line.length, calculate_orientation line.p1 line.p2 line.angle,
    calculate_midpoint line.p1 line.p2⟩

/-- Per-region line loop of Step 3 (source lines 579–603). -/
def regionLines (drawing_type : String) (region : VisionRegion)
    (unique_filtered_lines : List VectorLine) : List FilteredLine :=
  unique_filtered_lines.filterMap fun line =>
    if line_intersects_region line.p1 line.p2 region.coordinate_block then
      if drawing_type = "bestektekening" then
        if should_include_line line drawing_type region.label then
          some (projectLine line)
        else none
      else some (projectLine line)
    else none

/-- Per-region text loop of Step 3 (source lines 612–625). -/
def regionTexts (drawing_type : String) (region : VisionRegion)
    (texts : List VectorText) : List FilteredText :=
  texts.filterMap fun text =>
    if text_overlaps_region text region.coordinate_block then
      if should_include_text text drawing_type region.label then
        some ⟨text.text, calculate_text_midpoint text.bounding_box⟩
      else none
    else none

/-- Assembly of one region's output (source lines 563–638). -/
def processRegion (drawing_type : String) (region : VisionRegion)
    (unique_filtered_lines : List VectorLine) (texts : List VectorText) : RegionData :=
  let parsed_drawing_type :=
    if drawing_type = "bestektekening" then
      some (parse_bestektekening_region_type region.label)
    else none
  ⟨region.label,
    regionLines drawing_type region unique_filtered_lines,
    regionTexts drawing_type region texts,
    parsed_drawing_type⟩

/-- Embeds the `/filter/` handler `filter_clean` (source lines 508–656):
reject an empty page list, short-circuit `installatietekening`, otherwise
run Step 1 (type filter on the first page's lines), Step 2 (global
deduplication) and Step 3 (per-region assembly, in input region order). -/
def filter_clean (input_data : FilterInput) : Except String CleanOutput :=
  match input_data.vector_data.pages with
  | [] => .error "No pages in vector_data"
  | vector_page :: _ =>
    let drawing_type := input_data.vision_output.drawing_type
    let regions := input_data.vision_output.regions
    if drawing_type = "installatietekening" then
      .ok ⟨drawing_type, []⟩
    else
      let filtered_lines := step1Filter drawing_type vector_page.lines
      let unique_filtered_lines := remove_duplicate_lines filtered_lines
      .ok ⟨drawing_type,
        regions.map fun region =>
          processRegion drawing_type region unique_filtered_lines vector_page.texts⟩

/-! Helper lemmas. -/

/-- The trailing half of `pyStrip` is Mathlib's `rdropWhile`. -/
lemma pyStrip_eq_rdropWhile (s : List Char) :
    pyStrip s = (s.dropWhile pySpace).rdropWhile pySpace := rfl

/-- Stripping is idempotent, as for Python's `str.strip()`. -/
lemma pyStrip_idem (s : List Char) : pyStrip (pyStrip s) = pyStrip s := by
  have hu : (s.dropWhile pySpace).dropWhile pySpace = s.dropWhile pySpace :=
    List.dropWhile_idempotent pySpace s
  have hdw : ((s.dropWhile pySpace).rdropWhile pySpace).dropWhile pySpace
      = (s.dropWhile pySpace).rdropWhile pySpace := by
    obtain ⟨t, ht⟩ := List.rdropWhile_prefix pySpace (s.dropWhile pySpace)
    cases hr : (s.dropWhile pySpace).rdropWhile pySpace with
    | nil => simp
    | cons a r =>
      have hua : s.dropWhile pySpace = a :: (r ++ t) := by
        rw [← ht, hr, List.cons_append]
      have hnp : ¬ pySpace a = true := by
        intro hp
        have h2 := hu
        rw [hua, List.dropWhile_cons, if_pos hp] at h2
        have h4 : (List.dropWhile pySpace (r ++ t)).length ≤ (r ++ t).length :=
          (List.dropWhile_suffix pySpace).sublist.length_le
        rw [h2, List.length_cons] at h4
        omega
      rw [List.dropWhile_cons, if_neg hnp]
  calc pyStrip (pyStrip s)
      = (((s.dropWhile pySpace).rdropWhile pySpace).dropWhile pySpace).rdropWhile pySpace := by
        rw [pyStrip_eq_rdropWhile s, pyStrip_eq_rdropWhile]
    _ = ((s.dropWhile pySpace).rdropWhile pySpace).rdropWhile pySpace := by rw [hdw]
    _ = (s.dropWhile pySpace).rdropWhile pySpace :=
        List.rdropWhile_idempotent pySpace (s.dropWhile pySpace)
    _ = pyStrip s := (pyStrip_eq_rdropWhile s).symm

/-- No dimension pattern matches the empty string. -/
lemma extractCore_nil : extractCore [] = none := rfl

/-- A successful extraction forces a non-empty stripped input. -/
lemma pyStrip_ne_nil_of_extract {text : String} {v : ℚ}
    (h : extract_dimension_value text = some v) : pyStrip text.toList ≠ [] := by
  intro hnil
  rw [extract_dimension_value, hnil, extractCore_nil] at h
  exact Option.noConfusion h

/-! Claim C9 — orientation is undirected. -/

/-- Claim C9: orientation classification is undirected: for every pair of
points and every optional explicit angle,
`calculate_orientation p1 p2 a = calculate_orientation p2 p1 a`. -/
theorem claim9_orientation_symmetric (p1 p2 : ℚ × ℚ) (angle : Option ℚ) :
    calculate_orientation p1 p2 angle = calculate_orientation p2 p1 angle := by
  cases angle with
  | some a => rfl
  | none => simp only [calculate_orientation, abs_sub_comm p2.1 p1.1, abs_sub_comm p2.2 p1.2]

/-! Claim C2 — installatietekening short-circuit. -/

/-- Claim C2: for every input whose `drawing_type` is
`installatietekening` (and that survives the empty-pages check), the
pipeline returns an output with an empty regions list, regardless of the
page's lines, texts, and the supplied regions. -/
theorem claim2_installatietekening_short_circuit (input_data : FilterInput)
    (hdt : input_data.vision_output.drawing_type = "installatietekening")
    (hpages : input_data.vector_data.pages ≠ []) :
    filter_clean input_data = Except.ok ⟨"installatietekening", []⟩ := by
  rcases hp : input_data.vector_data.pages with _ | ⟨page, rest⟩
  · exact absurd hp hpages
  · rw [filter_clean, hp, hdt]
    simp

/-- Witness for C2 at a concrete input that has a line, a text and a
region: everything is discarded. -/
theorem claim2_witness :
    filter_clean
      ⟨⟨1, [⟨(595, 842), [⟨(0, 0), (100, 0), 1, 100, [0, 0, 0], false, none⟩],
        [⟨"2400", (10, 10), some 12, ⟨0, 0, 50, 20⟩⟩]⟩]⟩,
       ⟨"installatietekening", [⟨"Leidingen", ⟨0, 0, 200, 200⟩⟩]⟩⟩
      = Except.ok ⟨"installatietekening", []⟩ :=
  claim2_installatietekening_short_circuit _ rfl (by simp)

/-! Claim C3 — dimension parsing. -/

/-- Claim C3: the dimension parser returns `2400` for `"2400mm"`, `3500`
for `"3.5m"`, `2500` for `"250cm"`, `7555` for `"+7555P"`, `6032` for
`"6032+p"`, `3749` for `"3749 + p"`, and fails on `"abc"`; and the unit
conversion step maps a captured `cm` to ×10, `m` to ×1000, and `mm`,
absence of a unit, or a `p`/`v` marker to the unchanged value, so a
`p`/`v` token never changes the numeric value. -/
theorem claim3_dimension_parsing :
    extract_dimension_value "2400mm" = some 2400 ∧
    extract_dimension_value "3.5m" = some 3500 ∧
    extract_dimension_value "250cm" = some 2500 ∧
    extract_dimension_value "+7555P" = some 7555 ∧
    extract_dimension_value "6032+p" = some 6032 ∧
    extract_dimension_value "3749 + p" = some 3749 ∧
    extract_dimension_value "abc" = none ∧
    (∀ v : ℚ, convertUnit v (some ['c', 'm']) = v * 10) ∧
    (∀ v : ℚ, convertUnit v (some ['m']) = v * 1000) ∧
    (∀ v : ℚ, convertUnit v (some ['m', 'm']) = v) ∧
    (∀ v : ℚ, convertUnit v none = v) ∧
    (∀ v : ℚ, convertUnit v (some ['p']) = v) ∧
    (∀ v : ℚ, convertUnit v (some ['v']) = v) := by
  refine ⟨by with_unfolding_all rfl, by with_unfolding_all rfl, by with_unfolding_all rfl,
    by with_unfolding_all rfl, by with_unfolding_all rfl, by with_unfolding_all rfl,
    by with_unfolding_all rfl,
    fun v => rfl, fun v => by simp [convertUnit], fun v => by simp [convertUnit],
    fun v => rfl, fun v => by simp [convertUnit], fun v => by simp [convertUnit]⟩

/-! Claim C4 — validity bounds of `is_valid_dimension`. -/

/-- Claim C4: for every text whose parse succeeds with value `v`,
`is_valid_dimension text drawing_type` holds iff `min ≤ v ≤ max`, where
`min` is 500 mm for `plattegrond` and 100 mm for every other type and
`max` is 100000 mm; if the parse fails the validator returns `false`.
In particular 499 is invalid and 500 valid for `plattegrond`, 99 invalid
and 100 valid for any other type, and 100001 invalid while 100000 is
valid for all types. -/
theorem claim4_validity_bounds :
    (∀ (text drawing_type : String) (v : ℚ),
      extract_dimension_value text = some v →
      (is_valid_dimension text drawing_type = true ↔
        ((if drawing_type = "plattegrond" then (500 : ℚ) else 100) ≤ v ∧ v ≤ 100000))) ∧
    (∀ text drawing_type : String,
      extract_dimension_value text = none →
      is_valid_dimension text drawing_type = false) ∧
    is_valid_dimension "499" "plattegrond" = false ∧
    is_valid_dimension "500" "plattegrond" = true ∧
    is_valid_dimension "99" "doorsnede" = false ∧
    is_valid_dimension "100" "doorsnede" = true ∧
    is_valid_dimension "99" "unknown" = false ∧
    is_valid_dimension "100" "unknown" = true ∧
    is_valid_dimension "100001" "plattegrond" = false ∧
    is_valid_dimension "100001" "gevelaanzicht" = false ∧
    is_valid_dimension "100000" "plattegrond" = true ∧
    is_valid_dimension "100000" "gevelaanzicht" = true := by
  have hcore : ∀ (text : String),
      extractCore (pyStrip (pyStrip text.toList)) = extractCore (pyStrip text.toList) := by
    intro text; rw [pyStrip_idem]
  refine ⟨?_, ?_, by with_unfolding_all rfl, by with_unfolding_all rfl,
    by with_unfolding_all rfl, by with_unfolding_all rfl, by with_unfolding_all rfl,
    by with_unfolding_all rfl, by with_unfolding_all rfl, by with_unfolding_all rfl,
    by with_unfolding_all rfl, by with_unfolding_all rfl⟩
  · intro text drawing_type v h
    have hne : pyStrip text.toList ≠ [] := pyStrip_ne_nil_of_extract h
    have hne' : text.toList ≠ [] := by
      intro hnil
      apply hne
      rw [hnil]
      rfl
    have hv : extractCore (pyStrip (pyStrip text.toList)) = some v := by
      rw [hcore]
      exact h
    rw [is_valid_dimension, if_neg (by push_neg; exact ⟨hne', hne⟩)]
    simp only [hv]
    by_cases hdt : drawing_type = "plattegrond"
    · rw [if_pos hdt, if_pos hdt]
      constructor
      · intro hval
        by_cases h1 : v < 500
        · rw [if_pos h1] at hval; exact absurd hval (by simp)
        · rw [if_neg h1] at hval
          by_cases h2 : v > 100000
          · rw [if_pos h2] at hval; exact absurd hval (by simp)
          · exact ⟨le_of_not_lt h1, le_of_not_lt h2⟩
      · intro ⟨hlo, hhi⟩
        rw [if_neg (not_lt.mpr hlo), if_neg (not_lt.mpr hhi)]
    · rw [if_neg hdt, if_neg hdt]
      constructor
      · intro hval
        by_cases h1 : v < 100
        · rw [if_pos h1] at hval; exact absurd hval (by simp)
        · rw [if_neg h1] at hval
          by_cases h2 : v > 100000
          · rw [if_pos h2] at hval; exact absurd hval (by simp)
          · exact ⟨le_of_not_lt h1, le_of_not_lt h2⟩
      · intro ⟨hlo, hhi⟩
        rw [if_neg (not_lt.mpr hlo), if_neg (not_lt.mpr hhi)]
  · intro text drawing_type h
    rw [extract_dimension_value] at h
    rw [is_valid_dimension]
    by_cases hguard : text.toList = [] ∨ pyStrip text.toList = []
    · rw [if_pos hguard]
    · rw [if_neg hguard]
      have hv : extractCore (pyStrip (pyStrip text.toList)) = none := by
        rw [pyStrip_idem]
        exact h
      simp only [hv]

/-- Witness for C4 at a concrete parse: `"2400mm"` parses to 2400 mm,
which is within bounds for `plattegrond`, and `"abc"` fails to parse and
is invalid. -/
theorem claim4_witness :
    is_valid_dimension "2400mm" "plattegrond" = true ∧
    is_valid_dimension "abc" "plattegrond" = false := by
  constructor
  · exact (claim4_validity_bounds.1 "2400mm" "plattegrond" 2400
      (by with_unfolding_all rfl)).mpr (by norm_num)
  · exact claim4_validity_bounds.2.1 "abc" "plattegrond" (by with_unfolding_all rfl)

/-! Claim C6 — deduplication. -/

/-- Every line duplicates itself (the tolerance is strictly positive). -/
lemma isDupLine_self (l : VectorLine) : isDupLine l l = true := by
  simp [isDupLine, sub_self, abs_zero]

/-- The duplicate test is symmetric. -/
lemma isDupLine_comm (a b : VectorLine) : isDupLine a b = isDupLine b a := by
  simp only [isDupLine, abs_sub_comm a.p1.1 b.p1.1, abs_sub_comm a.p1.2 b.p1.2,
    abs_sub_comm a.p2.1 b.p2.1, abs_sub_comm a.p2.2 b.p2.2,
    abs_sub_comm a.p1.1 b.p2.1, abs_sub_comm a.p1.2 b.p2.2,
    abs_sub_comm a.p2.1 b.p1.1, abs_sub_comm a.p2.2 b.p1.2]
  rw [Bool.and_comm (decide (|b.p2.1 - a.p1.1| < 1 ∧ |b.p2.2 - a.p1.2| < 1))]

/-- The accumulator loop only ever appends to its accumulator, and what it
appends is a sublist of its input. -/
lemma dedupeAux_append (ls : List VectorLine) :
    ∀ acc, ∃ r, dedupeAux ls acc = acc ++ r ∧ r.Sublist ls := by
  induction ls with
  | nil => intro acc; exact ⟨[], by simp [dedupeAux]⟩
  | cons l ls ih =>
    intro acc
    by_cases h : acc.any (isDupLine l) = true
    · obtain ⟨r, hr, hs⟩ := ih acc
      exact ⟨r, by rw [dedupeAux, if_pos h, hr], hs.cons l⟩
    · obtain ⟨r, hr, hs⟩ := ih (acc ++ [l])
      refine ⟨l :: r, ?_, hs.cons₂ l⟩
      rw [dedupeAux, if_neg h, hr, List.append_assoc, List.singleton_append]

/-- The accumulator loop preserves the invariant that no accepted line
duplicates an earlier accepted line. -/
lemma dedupeAux_pairwise (ls : List VectorLine) :
    ∀ acc, acc.Pairwise (fun x y => isDupLine y x = false) →
      (dedupeAux ls acc).Pairwise (fun x y => isDupLine y x = false) := by
  induction ls with
  | nil => intro acc hacc; exact hacc
  | cons l ls ih =>
    intro acc hacc
    by_cases h : acc.any (isDupLine l) = true
    · rw [dedupeAux, if_pos h]; exact ih acc hacc
    · rw [dedupeAux, if_neg h]
      refine ih (acc ++ [l]) ?_
      rw [List.pairwise_append]
      refine ⟨hacc, List.pairwise_singleton _ _, ?_⟩
      intro a ha b hb
      rw [List.mem_singleton] at hb
      subst hb
      simp only [List.any_eq_true, not_exists, not_and] at h
      push_neg at h
      rcases hx : isDupLine b a with _ | _
      · rfl
      · exact absurd hx (by intro hc; exact absurd (h a ha) (by simp [hc]))

/-- Running the loop on a pairwise-duplicate-free list accepts every
element. -/
lemma dedupeAux_of_nodup (ls : List VectorLine) :
    ∀ acc, ls.Pairwise (fun x y => isDupLine y x = false) →
      (∀ a ∈ acc, ∀ x ∈ ls, isDupLine x a = false) →
      dedupeAux ls acc = acc ++ ls := by
  induction ls with
  | nil => intro acc _ _; simp [dedupeAux]
  | cons l ls ih =>
    intro acc hp hacross
    have hany : acc.any (isDupLine l) = false := by
      rw [List.any_eq_false]
      intro a ha
      rw [hacross a ha l (List.mem_cons_self l ls)]
      simp
    rw [dedupeAux, if_neg (by rw [hany]; simp)]
    rw [ih (acc ++ [l]) (List.Pairwise.of_cons hp) ?_]
    · rw [List.append_assoc, List.singleton_append]
    · intro a ha x hx
      rcases List.mem_append.mp ha with ha' | ha'
      · exact hacross a ha' x (List.mem_cons_of_mem l hx)
      · rw [List.mem_singleton] at ha'
        subst ha'
        exact (List.rel_of_pairwise_cons hp hx)

/-- Accepted lines cover the input up to duplication: every input line
duplicates some line of the result. -/
lemma dedupeAux_cover (ls : List VectorLine) :
    ∀ acc, ∀ l ∈ ls, ∃ e ∈ dedupeAux ls acc, isDupLine l e = true := by
  induction ls with
  | nil => intro _ l hl; exact absurd hl (List.not_mem_nil l)
  | cons x xs ih =>
    intro acc l hl
    by_cases h : acc.any (isDupLine x) = true
    · rw [dedupeAux, if_pos h]
      rcases List.mem_cons.mp hl with rfl | hl'
      · obtain ⟨a, ha, hd⟩ := List.any_eq_true.mp h
        obtain ⟨r, hr, _⟩ := dedupeAux_append xs acc
        exact ⟨a, by rw [hr]; exact List.mem_append_left r ha, hd⟩
      · exact ih acc l hl'
    · rw [dedupeAux, if_neg h]
      rcases List.mem_cons.mp hl with rfl | hl'
      · obtain ⟨r, hr, _⟩ := dedupeAux_append xs (acc ++ [l])
        refine ⟨l, ?_, isDupLine_self l⟩
        rw [hr]
        exact List.mem_append_left r (List.mem_append_right acc (List.mem_singleton_self l))
      · exact ih (acc ++ [x]) l hl'

/-- Claim C6: deduplication is idempotent, order-preserving (the result is
a sublist of the input), keeps a list's first line, its result contains no
duplicate pair, and every input line duplicates some kept line (so a
later duplicate collapses onto the earlier kept occurrence). -/
theorem claim6_dedupe_idempotent :
    (∀ L, remove_duplicate_lines (remove_duplicate_lines L) = remove_duplicate_lines L) ∧
    (∀ L, (remove_duplicate_lines L).Sublist L) ∧
    (∀ a L, ∃ t, remove_duplicate_lines (a :: L) = a :: t) ∧
    (∀ L, (remove_duplicate_lines L).Pairwise (fun x y => isDupLine y x = false)) ∧
    (∀ L, ∀ l ∈ L, ∃ e ∈ remove_duplicate_lines L, isDupLine l e = true) := by
  have hpair : ∀ L, (remove_duplicate_lines L).Pairwise (fun x y => isDupLine y x = false) :=
    fun L => dedupeAux_pairwise L [] (List.Pairwise.nil)
  refine ⟨?_, ?_, ?_, hpair, ?_⟩
  · intro L
    have h := dedupeAux_of_nodup (remove_duplicate_lines L) [] (hpair L)
      (by intro a ha; exact absurd ha (List.not_mem_nil a))
    rw [remove_duplicate_lines, h, List.nil_append]
  · intro L
    obtain ⟨r, hr, hs⟩ := dedupeAux_append L []
    rw [remove_duplicate_lines, hr, List.nil_append]
    exact hs
  · intro a L
    obtain ⟨r, hr, _⟩ := dedupeAux_append L [a]
    refine ⟨r, ?_⟩
    rw [remove_duplicate_lines, dedupeAux, if_neg (by simp), List.nil_append, hr,
      List.singleton_append]
  · intro L l hl
    exact dedupeAux_cover L [] l hl

/-- Witness for C6: a line and its reversed twin within tolerance collapse
to the first occurrence. -/
theorem claim6_witness :
    (∃ e ∈ remove_duplicate_lines
        [⟨(0, 0), (100, 0), 1, 100, [0, 0, 0], false, none⟩,
         ⟨(100, 0), (0, 0), 1, 100, [0, 0, 0], false, none⟩],
      isDupLine ⟨(100, 0), (0, 0), 1, 100, [0, 0, 0], false, none⟩ e = true) ∧
    remove_duplicate_lines
        [⟨(0, 0), (100, 0), 1, 100, [0, 0, 0], false, none⟩,
         ⟨(100, 0), (0, 0), 1, 100, [0, 0, 0], false, none⟩]
      = [⟨(0, 0), (100, 0), 1, 100, [0, 0, 0], false, none⟩] := by
  constructor
  · exact claim6_dedupe_idempotent.2.2.2.2 _
      ⟨(100, 0), (0, 0), 1, 100, [0, 0, 0], false, none⟩ (by simp)
  · with_unfolding_all rfl

/-! Claim C8 — region label classification. -/

/-- Taking up to the first occurrence of a character is the same as
taking while the character has not been seen. -/
lemma take_pyFind (c : Char) : ∀ t : List Char,
    t.take (pyFind c t) = t.takeWhile (fun x => x ≠ c) := by
  intro t
  induction t with
  | nil => rfl
  | cons x xs ih =>
    by_cases hx : x = c
    · subst hx
      rw [pyFind, if_pos rfl, List.take_zero, List.takeWhile_cons,
        if_neg (by simp)]
    · rw [pyFind, if_neg hx, List.take_succ_cons, List.takeWhile_cons,
        if_pos (by simp [hx]), ih]

/-- The source's slice between the first `(` and the first `)` equals the
span-style description used by the claim. -/
lemma pySlice_paren_eq_span : ∀ cs : List Char,
    pySlice cs (pyFind '(' cs + 1) (pyFind ')' cs) =
      ((cs.takeWhile (fun c => c ≠ ')')).dropWhile (fun c => c ≠ '(')).drop 1 := by
  intro cs
  induction cs with
  | nil => rfl
  | cons c t ih =>
    by_cases hc1 : c = ')'
    · subst hc1
      simp [pySlice, pyFind, List.takeWhile_cons]
    · by_cases hc2 : c = '('
      · subst hc2
        simp [pySlice, pyFind, List.takeWhile_cons, List.dropWhile_cons, take_pyFind]
      · have hf1 : pyFind '(' (c :: t) = pyFind '(' t + 1 := by rw [pyFind, if_neg hc2]
        have hf2 : pyFind ')' (c :: t) = pyFind ')' t + 1 := by rw [pyFind, if_neg hc1]
        rw [pySlice, hf1, hf2]
        have harith : pyFind ')' t + 1 - (pyFind '(' t + 1 + 1) =
            pyFind ')' t - (pyFind '(' t + 1) := by omega
        rw [List.drop_succ_cons, harith]
        rw [List.takeWhile_cons, if_pos (by simp [hc1]), List.dropWhile_cons,
          if_pos (by simp [hc2])]
        exact ih

/-- Formalisation of C8's description of the classifier, written from the
claim's words: read the token between the first `(` and the first `)`
(empty for a malformed pair), return it when it exactly matches a valid
sub-type, otherwise do case-insensitive keyword matching in the claim's
order, defaulting to `unknown`. -/
def claimClassifier (region_label : String) : String :=
  let cs := region_label.toList
  let parenHit : Option String :=
    if '(' ∈ cs ∧ ')' ∈ cs then
      let tok := pyStrip (((cs.takeWhile (fun c => c ≠ ')')).dropWhile (fun c => c ≠ '(')).drop 1)
      if tok ∈ validTypes then some (String.mk tok) else none
    else none
  match parenHit with
  | some t => t
  | none =>
    let label_lower := pyLower cs
    if containsSub label_lower "plattegrond".toList ∨
       containsSub label_lower "grond".toList ∨
       containsSub label_lower "verdieping".toList then "plattegrond"
    else if containsSub label_lower "gevel".toList ∨
            containsSub label_lower "aanzicht".toList then "gevelaanzicht"
    else if containsSub label_lower "doorsnede".toList then "doorsnede"
    else if containsSub label_lower "detail".toList then
      if containsSub label_lower "kozijn".toList ∨
         containsSub label_lower "raam".toList ∨
         containsSub label_lower "deur".toList then "detailtekening_kozijn"
      else "detailtekening"
    else "unknown"

/-- Claim C8: the region-label classifier behaves exactly as described:
token inside the first parenthesis pair if it is a valid sub-type,
otherwise the ordered keyword fallback, `unknown` on no match, and a
malformed parenthesis pair falls back to keyword matching. -/
theorem claim8_region_classifier (region_label : String) :
    parse_bestektekening_region_type region_label = claimClassifier region_label := by
  rw [parse_bestektekening_region_type, claimClassifier]
  simp only [pySlice_paren_eq_span]

/-- Witness for C8 at concrete labels (C8's theorem binds only the label,
recorded here for concrete coverage of the three branches). -/
theorem claim8_witness :
    parse_bestektekening_region_type "Begane grond (plattegrond)" =
      claimClassifier "Begane grond (plattegrond)" ∧
    parse_bestektekening_region_type "Doorsnede A-A" = claimClassifier "Doorsnede A-A" ∧
    parse_bestektekening_region_type "zzz" = claimClassifier "zzz" :=
  ⟨claim8_region_classifier _, claim8_region_classifier _, claim8_region_classifier _⟩

/-! Claim C1 — Step-1 filtering and per-region inclusion. -/

/-- Thresholds table of C1 for a resolved bestektekening sub-type,
written from the claim's words: plattegrond stroke ≤ 1.5 / length ≥ 50;
gevelaanzicht and doorsnede 1.5 / 40; the detailtekening family 1.0 / 20;
anything else (`unknown`) 1.5 / 30; a dashed line always passes. -/
def claimSubTypeRule (sub : String) (line : VectorLine) : Bool :=
  if sub = "plattegrond" then
    decide (line.stroke_width ≤ 3/2 ∧ line.length ≥ 50) || line.is_dashed
  else if sub = "gevelaanzicht" ∨ sub = "doorsnede" then
    decide (line.stroke_width ≤ 3/2 ∧ line.length ≥ 40) || line.is_dashed
  else if sub = "detailtekening" ∨ sub = "detailtekening_kozijn" ∨
          sub = "detailtekening_plattegrond" then
    decide (line.stroke_width ≤ 1 ∧ line.length ≥ 20) || line.is_dashed
  else
    decide (line.stroke_width ≤ 3/2 ∧ line.length ≥ 30) || line.is_dashed

/-- On a bestektekening page, `should_include_line` is exactly the
claim's threshold table applied to the sub-type resolved from the region
label. -/
lemma should_include_line_bestektekening (line : VectorLine) (region_label : String) :
    should_include_line line "bestektekening" region_label =
      claimSubTypeRule (parse_bestektekening_region_type region_label) line := by
  rw [should_include_line, if_pos rfl, claimSubTypeRule]
  by_cases h1 : parse_bestektekening_region_type region_label = "plattegrond"
  · simp [h1]
  · by_cases h2 : parse_bestektekening_region_type region_label = "gevelaanzicht"
    · simp [h1, h2]
    · by_cases h3 : parse_bestektekening_region_type region_label = "doorsnede"
      · simp [h1, h2, h3]
      · by_cases h4 : parse_bestektekening_region_type region_label = "detailtekening_kozijn"
        · simp [h1, h2, h3, h4]
        · by_cases h5 :
            parse_bestektekening_region_type region_label = "detailtekening_plattegrond"
          · simp [h1, h2, h3, h4, h5]
          · by_cases h6 : parse_bestektekening_region_type region_label = "detailtekening"
            · simp [h1, h2, h3, h4, h5, h6]
            · simp [h1, h2, h3, h4, h5, h6]

/-- Claim C1: on a bestektekening page a line survives Step 1 iff
(stroke ≤ 1.5 and length ≥ 20) or it is dashed; a deduplicated survivor
enters a region's output iff it spatially hits the region and passes the
thresholds of the sub-type resolved from the region's label (the claim's
table); on every other non-installatietekening page, region inclusion is
the spatial test alone. -/
theorem claim1_step1_and_region_inclusion :
    (∀ (lines : List VectorLine) (l : VectorLine),
      l ∈ step1Filter "bestektekening" lines ↔
        l ∈ lines ∧ ((l.stroke_width ≤ 3/2 ∧ l.length ≥ 20) ∨ l.is_dashed = true)) ∧
    (∀ (region : VisionRegion) (uls : List VectorLine),
      regionLines "bestektekening" region uls =
        (uls.filter fun l =>
          line_intersects_region l.p1 l.p2 region.coordinate_block &&
            claimSubTypeRule (parse_bestektekening_region_type region.label) l).map
          projectLine) ∧
    (∀ drawing_type : String, drawing_type ≠ "bestektekening" →
      drawing_type ≠ "installatietekening" →
      ∀ (region : VisionRegion) (uls : List VectorLine),
        regionLines drawing_type region uls =
          (uls.filter fun l =>
            line_intersects_region l.p1 l.p2 region.coordinate_block).map projectLine) := by
  refine ⟨?_, ?_, ?_⟩
  · intro lines l
    rw [step1Filter, if_pos rfl, List.mem_filter]
    simp [Bool.or_eq_true, decide_eq_true_iff]
  · intro region uls
    induction uls with
    | nil => rfl
    | cons x xs ih =>
      rw [regionLines, List.filterMap_cons, List.filter_cons]
      by_cases hint : line_intersects_region x.p1 x.p2 region.coordinate_block = true
      · rw [if_pos hint]
        by_cases hrule : should_include_line x "bestektekening" region.label = true
        · have hcr : (line_intersects_region x.p1 x.p2 region.coordinate_block &&
              claimSubTypeRule (parse_bestektekening_region_type region.label) x) = true := by
            rw [hint, ← should_include_line_bestektekening, hrule]
            rfl
          rw [if_pos rfl, if_pos hrule, hcr]
          exact congrArg (projectLine x :: ·) ih
        · have hcr : (line_intersects_region x.p1 x.p2 region.coordinate_block &&
              claimSubTypeRule (parse_bestektekening_region_type region.label) x) = false := by
            rw [hint, ← should_include_line_bestektekening,
              Bool.eq_false_iff.mpr hrule]
            rfl
          rw [if_pos rfl, if_neg hrule, hcr]
          exact ih
      · have hint' : line_intersects_region x.p1 x.p2 region.coordinate_block = false :=
          Bool.eq_false_iff.mpr hint
        have hcr : (line_intersects_region x.p1 x.p2 region.coordinate_block &&
            claimSubTypeRule (parse_bestektekening_region_type region.label) x) = false := by
          rw [hint']
          rfl
        rw [if_neg hint, hcr]
        exact ih
  · intro drawing_type hb _hi region uls
    induction uls with
    | nil => rfl
    | cons x xs ih =>
      rw [regionLines, List.filterMap_cons, List.filter_cons]
      by_cases hint : line_intersects_region x.p1 x.p2 region.coordinate_block = true
      · rw [if_pos hint, if_neg hb, hint]
        exact congrArg (projectLine x :: ·) ih
      · have hint' : line_intersects_region x.p1 x.p2 region.coordinate_block = false :=
          Bool.eq_false_iff.mpr hint
        rw [if_neg hint, hint']
        exact ih

/-- Witness for C1: concrete evaluation of all three conjuncts — Step 1
keeps a thin long line on a bestektekening page, the per-region filter of
a bestektekening region resolved to plattegrond drops a 45-long line, and
on a plattegrond page region inclusion is the spatial test alone. -/
theorem claim1_witness :
    (⟨(0, 0), (30, 0), 1, 30, [0, 0, 0], false, none⟩ : VectorLine) ∈
      step1Filter "bestektekening" [⟨(0, 0), (30, 0), 1, 30, [0, 0, 0], false, none⟩] ∧
    regionLines "bestektekening" ⟨"Plattegrond", ⟨0, 0, 200, 200⟩⟩
        [⟨(0, 0), (45, 0), 1, 45, [0, 0, 0], false, none⟩] = [] ∧
    regionLines "plattegrond" ⟨"Plattegrond", ⟨0, 0, 200, 200⟩⟩
        [⟨(0, 0), (45, 0), 1, 45, [0, 0, 0], false, none⟩] =
      [projectLine ⟨(0, 0), (45, 0), 1, 45, [0, 0, 0], false, none⟩] := by
  refine ⟨?_, ?_, ?_⟩
  · exact (claim1_step1_and_region_inclusion.1 _ _).mpr
      ⟨by simp, Or.inl (by norm_num)⟩
  · rw [claim1_step1_and_region_inclusion.2.1]
    with_unfolding_all rfl
  · rw [claim1_step1_and_region_inclusion.2.2 "plattegrond" (by decide) (by decide)]
    with_unfolding_all rfl

/-! Claim C7 — the 25-unit region buffer. -/

/-- Horizontal gap between a point and a rectangle (0 when the point's x
lies within the rectangle's x-range). -/
def rectGapX (p : ℚ × ℚ) (r : Rect) : ℚ :=
  max (r.x1 - p.1) (max 0 (p.1 - r.x2))

/-- Vertical gap between a point and a rectangle. -/
def rectGapY (p : ℚ × ℚ) (r : Rect) : ℚ :=
  max (r.y1 - p.2) (max 0 (p.2 - r.y2))

/-- Claim C7: `line_intersects_region` tests against the region expanded
by exactly 25 units per side: any segment with an endpoint inside the
expanded rectangle (inclusive bounds) is included; in particular an
endpoint within Euclidean distance 25 of the region (gap² ≤ 625) puts the
segment in, even when it lies entirely outside the region itself; and a
segment whose endpoints are both outside the expanded rectangle and which
does not intersect the expanded rectangle is excluded. -/
theorem claim7_region_buffer :
    (∀ (p1 p2 : ℚ × ℚ) (region : Rect),
      pointInRect p1 (expandRect region) = true ∨
        pointInRect p2 (expandRect region) = true →
      line_intersects_region p1 p2 region = true) ∧
    (∀ (p1 p2 : ℚ × ℚ) (region : Rect),
      rectGapX p1 region ^ 2 + rectGapY p1 region ^ 2 ≤ 625 →
      line_intersects_region p1 p2 region = true) ∧
    (∀ (p1 p2 : ℚ × ℚ) (region : Rect),
      pointInRect p1 (expandRect region) = false →
      pointInRect p2 (expandRect region) = false →
      segment_crosses_box p1 p2 (expandRect region) = false →
      line_intersects_region p1 p2 region = false) := by
  have hin : ∀ (p1 p2 : ℚ × ℚ) (region : Rect),
      pointInRect p1 (expandRect region) = true ∨
        pointInRect p2 (expandRect region) = true →
      line_intersects_region p1 p2 region = true := by
    intro p1 p2 region h
    rw [line_intersects_region]
    rcases h with h | h <;> simp [h]
  refine ⟨hin, ?_, ?_⟩
  · intro p1 p2 region hgap
    have hx0 : 0 ≤ rectGapX p1 region := le_max_of_le_right (le_max_left 0 _)
    have hy0 : 0 ≤ rectGapY p1 region := le_max_of_le_right (le_max_left 0 _)
    have hx : rectGapX p1 region ≤ 25 := by nlinarith [sq_nonneg (rectGapX p1 region), sq_nonneg (rectGapY p1 region)]
    have hy : rectGapY p1 region ≤ 25 := by nlinarith [sq_nonneg (rectGapX p1 region), sq_nonneg (rectGapY p1 region)]
    have hx1 : region.x1 - p1.1 ≤ 25 := le_trans (le_max_left _ _) hx
    have hx2 : p1.1 - region.x2 ≤ 25 :=
      le_trans (le_trans (le_max_right 0 _) (le_max_right _ _)) hx
    have hy1 : region.y1 - p1.2 ≤ 25 := le_trans (le_max_left _ _) hy
    have hy2 : p1.2 - region.y2 ≤ 25 :=
      le_trans (le_trans (le_max_right 0 _) (le_max_right _ _)) hy
    refine hin p1 p2 region (Or.inl ?_)
    rw [pointInRect, expandRect]
    refine decide_eq_true ⟨by simpa using by linarith, by simpa using by linarith,
      by simpa using by linarith, by simpa using by linarith⟩
  · intro p1 p2 region h1 h2 hcross
    rw [line_intersects_region]
    rw [h1, h2]
    simp only [Bool.or_self, Bool.false_eq_true, if_false]
    split
    · rfl
    · exact hcross

/-- Witness for C7: a segment touching the buffer from outside the region
is included; a far-away segment is excluded. -/
theorem claim7_witness :
    line_intersects_region (220, 25) (300, 25) ⟨0, 0, 200, 50⟩ = true ∧
    line_intersects_region (0, 0) (100, 0) ⟨0, 0, 200, 50⟩ = true ∧
    line_intersects_region (1000, 1000) (1010, 1000) ⟨0, 0, 200, 50⟩ = false := by
  refine ⟨?_, ?_, ?_⟩
  · exact claim7_region_buffer.2.1 (220, 25) (300, 25) ⟨0, 0, 200, 50⟩
      (by rw [rectGapX, rectGapY]; norm_num)
  · exact claim7_region_buffer.1 (0, 0) (100, 0) ⟨0, 0, 200, 50⟩
      (Or.inl (by rw [pointInRect, expandRect]; norm_num))
  · exact claim7_region_buffer.2.2 (1000, 1000) (1010, 1000) ⟨0, 0, 200, 50⟩
      (by rw [pointInRect, expandRect]; norm_num)
      (by rw [pointInRect, expandRect]; norm_num)
      (by rw [segment_crosses_box, expandRect]; norm_num)

/-! Claim C10 — all-or-nothing output. -/

/-- Claim C10: the pipeline fails exactly on an empty pages list (the only
malformed-input condition), and on every other input whose drawing type
is not `installatietekening` it succeeds with exactly one region entry
per input region, in input order, each carrying that region's label —
there is no partial output. -/
theorem claim10_all_or_nothing (input_data : FilterInput) :
    ((∃ e, filter_clean input_data = Except.error e) ↔
      input_data.vector_data.pages = []) ∧
    (input_data.vector_data.pages ≠ [] →
      input_data.vision_output.drawing_type ≠ "installatietekening" →
      ∃ out, filter_clean input_data = Except.ok out ∧
        out.drawing_type = input_data.vision_output.drawing_type ∧
        out.regions.map RegionData.label =
          input_data.vision_output.regions.map VisionRegion.label ∧
        out.regions.length = input_data.vision_output.regions.length) := by
  obtain ⟨⟨pn, pages⟩, ⟨dt, regions⟩⟩ := input_data
  constructor
  · constructor
    · intro ⟨e, he⟩
      cases pages with
      | nil => rfl
      | cons page rest =>
        by_cases hdt : dt = "installatietekening" <;> simp [filter_clean, hdt] at he
    · intro hp
      have hp' : pages = [] := hp
      subst hp'
      exact ⟨"No pages in vector_data", rfl⟩
  · intro hp hdt
    cases pages with
    | nil => exact absurd rfl hp
    | cons page rest =>
      have hdt' : dt ≠ "installatietekening" := hdt
      refine ⟨⟨dt, regions.map fun region =>
        processRegion dt region (remove_duplicate_lines (step1Filter dt page.lines))
          page.texts⟩, ?_, rfl, ?_, by simp⟩
      · show (if dt = "installatietekening" then _ else _) = _
        rw [if_neg hdt']
      · show (regions.map _).map _ = _
        rw [List.map_map]
        rfl

/-- Witness for C10: a concrete one-page, two-region input yields one
output entry per region with the labels preserved in order, and the
empty-pages input is the failure case. -/
theorem claim10_witness :
    (∃ out, filter_clean
        ⟨⟨1, [⟨(595, 842), [], []⟩]⟩,
         ⟨"doorsnede", [⟨"links", ⟨0, 0, 100, 100⟩⟩, ⟨"rechts", ⟨100, 0, 200, 100⟩⟩]⟩⟩
        = Except.ok out ∧
      out.drawing_type = "doorsnede" ∧
      out.regions.map RegionData.label = ["links", "rechts"] ∧
      out.regions.length = 2) ∧
    (∃ e, filter_clean ⟨⟨1, []⟩, ⟨"doorsnede", []⟩⟩ = Except.error e) := by
  constructor
  · obtain ⟨out, h1, h2, h3, h4⟩ :=
      (claim10_all_or_nothing
        ⟨⟨1, [⟨(595, 842), [], []⟩]⟩,
         ⟨"doorsnede", [⟨"links", ⟨0, 0, 100, 100⟩⟩, ⟨"rechts", ⟨100, 0, 200, 100⟩⟩]⟩⟩).2
        (by simp) (by simp)
    exact ⟨out, h1, h2, h3, h4⟩
  · exact (claim10_all_or_nothing ⟨⟨1, []⟩, ⟨"doorsnede", []⟩⟩).1.mpr rfl

/-! Claim C5 — end-to-end scenario (corrected: the source labels a
horizontal segment "vertical"). -/

/-- The concrete input of C5: one line from (0,0) to (100,0) with stroke
1.0 and length 100 on a plattegrond page, one region (0,0)–(200,50). -/
def c5Input : FilterInput :=
  ⟨⟨1, [⟨(595, 842), [⟨(0, 0), (100, 0), 1, 100, [0, 0, 0], false, none⟩], []⟩]⟩,
   ⟨"plattegrond", [⟨"regio", ⟨0, 0, 200, 50⟩⟩]⟩⟩

/-- Counterexample to C5: on the claim's input the single region's output
holds exactly one projected line, but its orientation is `"vertical"`
(the endpoint branch of `calculate_orientation` returns `"vertical"` for
`dy < 1`), not `"horizontal"` as claimed. -/
theorem claim5_counterexample :
    (filter_clean c5Input).map (fun o => o.regions.map RegionData.lines) =
      Except.ok [[⟨100, "vertical", ⟨50, 0⟩⟩]] ∧
    (⟨100, "vertical", ⟨50, 0⟩⟩ : FilteredLine) ≠ ⟨100, "horizontal", ⟨50, 0⟩⟩ := by
  constructor
  · with_unfolding_all rfl
  · intro h
    exact absurd (congrArg FilteredLine.orientation h) (by decide)

/-- Amended claim C5: the output for the region contains exactly the one
line, projected with length 100, orientation `"vertical"`, and midpoint
(50, 0). -/
theorem claim5_end_to_end :
    filter_clean c5Input =
      Except.ok ⟨"plattegrond",
        [⟨"regio", [⟨100, "vertical", ⟨50, 0⟩⟩], [], none⟩]⟩ := by
  with_unfolding_all rfl

end PreFilter
